import Mathlib

/-
Verification of the storage-metered mint engine of the Ukrainian Magicals
NFT contract (src/contract/src/lib.rs).

The contract file contains the Batch Issuance Orchestrator `nft_mint_all`
(lib.rs lines 86-157).  The Deposit Reconciler (`refund_deposit_to_account`),
the Token Registry primitive (`internal_mint_with_refund`) and the
execution-environment services (`env::storage_usage`, `env::attached_deposit`,
`env::predecessor_account_id`, transactional rollback on abort) are provided
by the external standards library and the chain runtime; only their call
sites appear in the repository.  Those collaborators are modelled here from
the specification (sections 4.1, 4.2, 4.3, 5, 6 and 7), each such definition
carrying a doc comment that says so.

Machine integers: currency quantities are unsigned 128-bit values; they are
embedded as Nat with an explicit guard at 2 ^ 128 where the specification
makes overflow observable (the price multiplication).  Storage byte counts
are u64 values embedded as Nat; inside `nft_mint_all` storage only grows,
so the u64 subtraction `after - before` at lib.rs line 148 is the exact
difference and is embedded as Nat subtraction.
-/

/-- Token metadata record, with exactly the fields populated by
`nft_mint_all` (lib.rs lines 93-106): the `u64` copies count and hash /
timestamp fields are embedded as `Nat` / `String` options. -/
structure TokenMetadata where
  title : Option String
  description : Option String
  media : Option String
  media_hash : Option String
  copies : Option Nat
  issued_at : Option String
  expires_at : Option String
  starts_at : Option String
  updated_at : Option String
  extra : Option String
  reference : Option String
  reference_hash : Option String
deriving DecidableEq, Repr

/-- One token as stored by the Token Registry collaborator: its owner
account and its optional metadata record. -/
structure TokenData where
  owner_id : String
  metadata : Option TokenMetadata
deriving DecidableEq, Repr

/-- The persistent state of the contract account: the owner recorded at
initialization (`tokens.owner_id`, lib.rs line 74), the token registry
(id-keyed map, newest binding first), and the total persistent-storage
footprint in bytes as reported by `env::storage_usage`. -/
structure ContractState where
  owner_id : String
  registry : List (String × TokenData)
  storage_usage : Nat
deriving DecidableEq, Repr

/-- The call context supplied by the execution environment:
`env::predecessor_account_id`, `env::attached_deposit` and
`env::block_timestamp` (nanoseconds). -/
structure Ctx where
  predecessor_account_id : String
  attached_deposit : Nat
  block_timestamp : Nat
deriving DecidableEq, Repr

/-- Error taxonomy of the engine (spec section 7). -/
inductive MintError where
  | unauthorized : MintError
  | duplicateTokenId : MintError
  | insufficientDeposit (required available : Nat) : MintError
  | arithmeticOverflow : MintError
deriving DecidableEq, Repr

/-- A scheduled fire-and-forget currency transfer back to an account
(spec section 3, RefundInstruction). -/
structure RefundInstruction where
  amount : Nat
  destination : String
deriving DecidableEq, Repr

/-- Observable actions of one call, in execution order: a storage-meter
read (with the value read), a registry create-token call, a scheduled
refund transfer, and the mint notification. -/
inductive Event where
  | meterRead (value : Nat) : Event
  | mintToken (token_id : String) : Event
  | refund (amount : Nat) (destination : String) : Event
  | nftMintEvent (owner_id : String) (token_ids : List String) : Event
deriving DecidableEq, Repr

/-- `Contract::new` (lib.rs lines 61-82): the deploying caller is recorded
as `tokens.owner_id`; the registry starts empty.  `base_storage` is the
footprint of the freshly initialized contract. -/
def ContractState.new (predecessor_account_id : String) (base_storage : Nat) :
    ContractState :=
  ⟨predecessor_account_id, [], base_storage⟩

/-- Modelled from the spec: the Deposit Reconciler
(`refund_deposit_to_account` of the external standards library, called at
lib.rs lines 147-150, is not part of this repository).  Spec section 4.2:
for `delta > 0` the required payment is `delta * StoragePrice`; the call
fails with `InsufficientDeposit` when underfunded, otherwise the excess is
scheduled as a refund to the payer; for `delta <= 0` the released value
`natAbs delta * StoragePrice` plus the whole prepaid amount is refunded.
Overflow of the price multiplication beyond the unsigned 128-bit range is
fatal (`ArithmeticOverflow`), never wrapped. -/
def reconcile (price : Nat) (delta : Int) (prepaid : Nat) (payer : String) :
    Except MintError RefundInstruction :=
  if 0 < delta then
    if delta.toNat * price < 2 ^ 128 then
      if prepaid < delta.toNat * price then
        .error (.insufficientDeposit (delta.toNat * price) prepaid)
      else
        .ok ⟨prepaid - delta.toNat * price, payer⟩
    else .error .arithmeticOverflow
  else
    if delta.natAbs * price < 2 ^ 128 then
      .ok ⟨prepaid + delta.natAbs * price, payer⟩
    else .error .arithmeticOverflow

/-- Modelled from the spec: the Token Registry primitive create-token
operation (`internal_mint_with_refund` of the external standards library,
called at lib.rs lines 90, 109 and 128, is not part of this repository).
Spec sections 4.3 and 6: the registry checks that the caller is the
singular privileged account recorded at initialization, fails with
`DuplicateTokenId` when the id already exists, and otherwise stores the
token and grows persistent storage.  `sz` abstracts the serialized size in
bytes added by one token (registry entry plus metadata and enumeration
records). -/
def create_token (sz : String → Option TokenMetadata → Nat) (caller : String)
    (token_id : String) (token_owner_id : String)
    (token_metadata : Option TokenMetadata) (st : ContractState) :
    Except MintError ContractState :=
  if caller = st.owner_id then
    if (st.registry.lookup token_id).isSome then .error .duplicateTokenId
    else
      .ok ⟨st.owner_id, (token_id, ⟨token_owner_id, token_metadata⟩) :: st.registry,
           st.storage_usage + sz token_id token_metadata⟩
  else .error .unauthorized

/-- Metadata of token "0" (lib.rs lines 93-106). -/
def mariupolMetadata (issued_at : String) : TokenMetadata :=
  { title := some "#0 Mariupol"
    description := some "Ukrainian Magicals - unique NFT collection created by Ukrainian augmented reality team called Magicals within the framework of Hackathon «For Ukraine» by NEAR UA"
    media := some "Cqe2tJCF-yygmxci0RsESa62zQNqPV9oZVDeallYI7o"
    media_hash := none
    copies := some 1
    issued_at := some issued_at
    expires_at := none
    starts_at := none
    updated_at := none
    extra := none
    reference := some "Akb7UGDwSbcYka0-frMk5T-YTJQurXzdD0ZBnSqyBRQ"
    reference_hash := none }

/-- Metadata of token "1" (lib.rs lines 112-125). -/
def kharkivMetadata (issued_at : String) : TokenMetadata :=
  { title := some "#1 Kharkiv"
    description := some "Ukrainian Magicals - unique NFT collection created by Ukrainian augmented reality team called Magicals within the framework of Hackathon «For Ukraine» by NEAR UA"
    media := some "g2kMZ1OhktT0X8R1OzAbdpIk81Dr28uLdyJPlO5YvlM"
    media_hash := none
    copies := some 1
    issued_at := some issued_at
    expires_at := none
    starts_at := none
    updated_at := none
    extra := none
    reference := some "65nN_FOLcxCmm5dEPDQi_pQBTu6hxSslvFiepNE02F4"
    reference_hash := none }

/-- Metadata of token "2" (lib.rs lines 131-144). -/
def mykolaivMetadata (issued_at : String) : TokenMetadata :=
  { title := some "#2 Mykolaiv"
    description := some "Ukrainian Magicals - unique NFT collection created by Ukrainian augmented reality team called Magicals within the framework of Hackathon «For Ukraine» by NEAR UA"
    media := some "Cqe2tJCF-yygmxci0RsESa62zQNqPV9oZVDeallYI7o"
    media_hash := none
    copies := some 1
    issued_at := some issued_at
    expires_at := none
    starts_at := none
    updated_at := none
    extra := none
    reference := some "U8zVK7opopOesv9trJihrwIcZl7tAQcil0sbetfSJ4U"
    reference_hash := none }

/-- The synchronous body of `nft_mint_all` (lib.rs lines 86-157), state
passed explicitly.  It reads the storage meter, issues the three fixed
registry create-token calls with the contract owner as token owner, reads
the meter again, hands the overall difference and the attached deposit to
the Reconciler with the predecessor as payer, and emits one mint
notification.  On an error the partially mutated state is carried in the
error so that the environment-level dispatcher can discard it.  The event
list records the observable actions in execution order. -/
def nft_mint_all_body (price : Nat) (sz : String → Option TokenMetadata → Nat)
    (ctx : Ctx) (st : ContractState) :
    Except (MintError × ContractState) (ContractState × List Event) :=
  match create_token sz ctx.predecessor_account_id "0" st.owner_id
      (some (mariupolMetadata (toString (ctx.block_timestamp / 1000000000)))) st with
  | .error e => .error (e, st)
  | .ok st1 =>
    match create_token sz ctx.predecessor_account_id "1" st.owner_id
        (some (kharkivMetadata (toString (ctx.block_timestamp / 1000000000)))) st1 with
    | .error e => .error (e, st1)
    | .ok st2 =>
      match create_token sz ctx.predecessor_account_id "2" st.owner_id
          (some (mykolaivMetadata (toString (ctx.block_timestamp / 1000000000)))) st2 with
      | .error e => .error (e, st2)
      | .ok st3 =>
        match reconcile price ((st3.storage_usage - st.storage_usage : Nat) : Int)
            ctx.attached_deposit ctx.predecessor_account_id with
        | .error e => .error (e, st3)
        | .ok r =>
          .ok (st3,
            [Event.meterRead st.storage_usage,
             Event.mintToken "0", Event.mintToken "1", Event.mintToken "2",
             Event.meterRead st3.storage_usage,
             Event.refund r.amount r.destination,
             Event.nftMintEvent st3.owner_id ["0", "1", "2"]])

/-- Modelled from the spec: the execution environment guarantees (spec
sections 5 and 7) that when any fatal condition occurs during a call, all
state mutations performed during that call are discarded as a unit; this
dispatcher returns the pre-call state on any error and the mutated state
only on success. -/
def nft_mint_all (price : Nat) (sz : String → Option TokenMetadata → Nat)
    (ctx : Ctx) (st : ContractState) :
    ContractState × Except MintError (List Event) :=
  match nft_mint_all_body price sz ctx st with
  | .ok (st1, evs) => (st1, .ok evs)
  | .error (e, _) => (st, .error e)

/-- Is this Except value a failure with `InsufficientDeposit`? -/
def failsInsufficientDeposit (x : Except MintError RefundInstruction) : Bool :=
  match x with
  | .error (.insufficientDeposit _ _) => true
  | _ => false

/-- Is this error one produced by the Deposit Reconciler? -/
def isReconcileFailure (e : MintError) : Bool :=
  match e with
  | .insufficientDeposit _ _ => true
  | .arithmeticOverflow => true
  | _ => false

/-- Did the body of a metered call fail in its deposit-reconciliation
step? -/
def failsReconciliation
    (x : Except (MintError × ContractState) (ContractState × List Event)) : Bool :=
  match x with
  | .error (e, _) => isReconcileFailure e
  | _ => false

/-- Is this event the mint notification? -/
def Event.isNftMintEvent (e : Event) : Bool :=
  match e with
  | .nftMintEvent _ _ => true
  | _ => false

/-- Is this event a storage-meter read? -/
def Event.isMeterRead (e : Event) : Bool :=
  match e with
  | .meterRead _ => true
  | _ => false

/-- Is this event a scheduled refund transfer? -/
def Event.isRefund (e : Event) : Bool :=
  match e with
  | .refund _ _ => true
  | _ => false

/-- Helper: inverting a successful registry create-token call: the caller
was the privileged owner, the id was fresh, and the resulting state is the
input state with the new binding at the front and the storage footprint
grown by the serialized size. -/
theorem create_token_ok_elim {sz : String → Option TokenMetadata → Nat}
    {caller token_id token_owner_id : String} {token_metadata : Option TokenMetadata}
    {st st1 : ContractState}
    (h : create_token sz caller token_id token_owner_id token_metadata st = .ok st1) :
    caller = st.owner_id ∧ (st.registry.lookup token_id).isSome = false ∧
    st1 = ⟨st.owner_id, (token_id, ⟨token_owner_id, token_metadata⟩) :: st.registry,
           st.storage_usage + sz token_id token_metadata⟩ := by
  unfold create_token at h
  split at h
  next hc =>
    split at h
    next hd => simp at h
    next hd =>
      injection h with h
      refine ⟨hc, ?_, h.symm⟩
      simp only [Bool.not_eq_true] at hd
      exact hd
  next hc => simp at h

/-- Helper: looking a key up past a cons with a different key. -/
theorem lookup_cons_of_ne {k a : String} {v : TokenData} {l : List (String × TokenData)}
    (h : (a == k) = false) : ((k, v) :: l).lookup a = l.lookup a := by
  simp [List.lookup, h]

/-- Helper: a create-token call by the privileged owner can only fail with
DuplicateTokenId, and then the id was already registered. -/
theorem create_token_error_of_auth {sz : String → Option TokenMetadata → Nat}
    {caller token_id town : String} {meta : Option TokenMetadata}
    {st : ContractState} {e : MintError}
    (h : create_token sz caller token_id town meta st = .error e)
    (hc : caller = st.owner_id) :
    e = .duplicateTokenId ∧ (st.registry.lookup token_id).isSome = true := by
  unfold create_token at h
  rw [if_pos hc] at h
  split at h
  next hd =>
    injection h with h
    exact ⟨h.symm, hd⟩
  next hd => simp at h

/-- Helper: a successful reconciliation always addresses its refund
instruction to the payer. -/
theorem reconcile_ok_dest {price : Nat} {delta : Int} {prepaid : Nat}
    {payer : String} {r : RefundInstruction}
    (h : reconcile price delta prepaid payer = .ok r) : r.destination = payer := by
  unfold reconcile at h
  split at h
  · split at h
    · split at h
      · simp at h
      · injection h with h
        subst h
        rfl
    · simp at h
  · split at h
    · injection h with h
      subst h
      rfl
    · simp at h

/-- Helper: a successful reconciliation of a nonnegative byte delta `n`
refunds exactly `prepaid - n * price` (for `n = 0` the two branches of the
reconciler agree on the full `prepaid`). -/
theorem reconcile_natCast_ok {price n prepaid : Nat} {payer : String}
    {r : RefundInstruction}
    (h : reconcile price (n : Int) prepaid payer = .ok r) :
    r = ⟨prepaid - n * price, payer⟩ := by
  unfold reconcile at h
  rcases Nat.eq_zero_or_pos n with hn | hn
  · subst hn
    rw [if_neg (by omega), if_pos (by norm_num)] at h
    injection h with h
    subst h
    simp
  · rw [if_pos (by omega)] at h
    have ht : (n : Int).toNat = n := rfl
    rw [ht] at h
    split at h
    · split at h
      · simp at h
      · injection h with h
        subst h
        rfl
    · simp at h

/-- Helper: full inversion of a successful `nft_mint_all` body: the caller
was the owner, the registry gained exactly the three catalog tokens owned
by the contract owner, the reconciler accepted the overall storage delta,
and the event trace is the fixed seven-step sequence. -/
theorem nft_mint_all_body_ok_elim {price : Nat}
    {sz : String → Option TokenMetadata → Nat} {ctx : Ctx}
    {st st3 : ContractState} {evs : List Event}
    (h : nft_mint_all_body price sz ctx st = .ok (st3, evs)) :
    ctx.predecessor_account_id = st.owner_id ∧
    st3.owner_id = st.owner_id ∧
    st3.registry =
      ("2", ⟨st.owner_id, some (mykolaivMetadata (toString (ctx.block_timestamp / 1000000000)))⟩) ::
      ("1", ⟨st.owner_id, some (kharkivMetadata (toString (ctx.block_timestamp / 1000000000)))⟩) ::
      ("0", ⟨st.owner_id, some (mariupolMetadata (toString (ctx.block_timestamp / 1000000000)))⟩) ::
      st.registry ∧
    ∃ r, reconcile price ((st3.storage_usage - st.storage_usage : Nat) : Int)
          ctx.attached_deposit ctx.predecessor_account_id = .ok r ∧
      r.destination = ctx.predecessor_account_id ∧
      evs = [Event.meterRead st.storage_usage,
             Event.mintToken "0", Event.mintToken "1", Event.mintToken "2",
             Event.meterRead st3.storage_usage,
             Event.refund r.amount r.destination,
             Event.nftMintEvent st.owner_id ["0", "1", "2"]] := by
  unfold nft_mint_all_body at h
  split at h
  next e heq0 => simp at h
  next st1 heq0 =>
    split at h
    next e heq1 => simp at h
    next st2 heq1 =>
      split at h
      next e heq2 => simp at h
      next st3x heq2 =>
        split at h
        next e heq3 => simp at h
        next r heq3 =>
          injection h with h
          injection h with hA hB
          subst hA
          obtain ⟨hc0, hf0, hst1⟩ := create_token_ok_elim heq0
          subst hst1
          obtain ⟨hc1, hf1, hst2⟩ := create_token_ok_elim heq1
          subst hst2
          obtain ⟨hc2, hf2, hst3⟩ := create_token_ok_elim heq2
          subst hst3
          exact ⟨hc0, rfl, rfl, r, heq3, reconcile_ok_dest heq3, hB.symm⟩

/-- Helper: under the privileged caller, a batch issuance against a
registry that already holds one of the catalog ids "0", "1", "2" aborts
its body with DuplicateTokenId. -/
theorem nft_mint_all_body_dup {price : Nat} {sz : String → Option TokenMetadata → Nat}
    {ctx : Ctx} {st : ContractState}
    (hc : ctx.predecessor_account_id = st.owner_id)
    (hdup : (st.registry.lookup "0").isSome = true ∨
            (st.registry.lookup "1").isSome = true ∨
            (st.registry.lookup "2").isSome = true) :
    ∃ stp, nft_mint_all_body price sz ctx st = .error (.duplicateTokenId, stp) := by
  unfold nft_mint_all_body
  split
  next e heq =>
    obtain ⟨he, -⟩ := create_token_error_of_auth heq hc
    subst he
    exact ⟨st, rfl⟩
  next st1 heq0 =>
    obtain ⟨-, hf0, hst1⟩ := create_token_ok_elim heq0
    subst hst1
    split
    next e heq =>
      obtain ⟨he, -⟩ := create_token_error_of_auth heq hc
      subst he
      exact ⟨_, rfl⟩
    next st2 heq1 =>
      obtain ⟨-, hf1, hst2⟩ := create_token_ok_elim heq1
      subst hst2
      split
      next e heq =>
        obtain ⟨he, -⟩ := create_token_error_of_auth heq hc
        subst he
        exact ⟨_, rfl⟩
      next st3 heq2 =>
        obtain ⟨-, hf2, hst3⟩ := create_token_ok_elim heq2
        rw [lookup_cons_of_ne (by decide)] at hf1
        rw [lookup_cons_of_ne (by decide), lookup_cons_of_ne (by decide)] at hf2
        rcases hdup with h | h | h
        · rw [hf0] at h; cases h
        · rw [hf1] at h; cases h
        · rw [hf2] at h; cases h

/-- Claim C1, counterexample: at `delta = 2`, `StoragePrice = 2 ^ 127` and
`prepaid = 0` the prepaid amount is below `delta * StoragePrice`, yet the
reconciliation step does not fail with InsufficientDeposit: the price
multiplication exceeds the unsigned 128-bit range, so it aborts with
ArithmeticOverflow instead, and the claimed equivalence is false at this
input. -/
theorem reconcile_insufficient_iff_counterexample :
    reconcile (2 ^ 127) 2 0 "alice" = .error .arithmeticOverflow ∧
    failsInsufficientDeposit (reconcile (2 ^ 127) 2 0 "alice") = false ∧
    0 < (2 : Int).toNat * 2 ^ 127 := by
  refine ⟨rfl, rfl, by decide⟩

/-- Claim C1 (amended): for every positive storage delta whose price
multiplication fits the unsigned 128-bit range, the deposit reconciliation
step fails with InsufficientDeposit iff the prepaid amount is below
`delta * StoragePrice`, and when the prepaid amount covers it, the step
succeeds and refunds exactly `prepaid - delta * StoragePrice` to the
payer. -/
theorem reconcile_pos_delta_amended (price : Nat) (delta : Int) (prepaid : Nat)
    (payer : String) (hd : 0 < delta) (hfit : delta.toNat * price < 2 ^ 128) :
    (failsInsufficientDeposit (reconcile price delta prepaid payer) = true ↔
      prepaid < delta.toNat * price) ∧
    (delta.toNat * price ≤ prepaid →
      reconcile price delta prepaid payer = .ok ⟨prepaid - delta.toNat * price, payer⟩) := by
  unfold reconcile
  rw [if_pos hd, if_pos hfit]
  constructor
  · constructor
    · intro h
      by_contra hp
      rw [if_neg hp] at h
      simp [failsInsufficientDeposit] at h
    · intro hp
      rw [if_pos hp]
      rfl
  · intro hp
    rw [if_neg (by omega)]

/-- Claim C1, witness: with `StoragePrice = 10`, `delta = 5` and
`prepaid = 40 < 50` the reconciliation step fails with
InsufficientDeposit. -/
theorem reconcile_pos_delta_amended_witness :
    failsInsufficientDeposit (reconcile 10 5 40 "alice") = true :=
  (reconcile_pos_delta_amended 10 5 40 "alice" (by decide) (by decide)).1.mpr (by decide)

/-- Claim C2: when the deposit-reconciliation step of a batch issuance
fails, the environment-level dispatcher discards the entire call: the
contract state, and in particular the token registry, is exactly what it
was before the call, no token of the batch is retained, and the error is
surfaced. -/
theorem nft_mint_all_reconcile_failure_atomic (price : Nat)
    (sz : String → Option TokenMetadata → Nat) (ctx : Ctx) (st : ContractState)
    (h : failsReconciliation (nft_mint_all_body price sz ctx st) = true) :
    (nft_mint_all price sz ctx st).1 = st ∧
    (nft_mint_all price sz ctx st).1.registry = st.registry ∧
    (nft_mint_all price sz ctx st).2.isOk = false := by
  unfold failsReconciliation at h
  unfold nft_mint_all
  split at h
  next e stp heq =>
    rw [heq]
    exact ⟨rfl, rfl, rfl⟩
  next heq => simp at h

/-- Claim C2, witness: a batch issuance with zero attached deposit fails
its reconciliation step and leaves the registry empty, exactly as before
the call. -/
theorem nft_mint_all_reconcile_failure_atomic_witness :
    (nft_mint_all 10 (fun _ _ => 10) ⟨"alice", 0, 0⟩ ⟨"alice", [], 100⟩).1 =
      (⟨"alice", [], 100⟩ : ContractState) ∧
    (nft_mint_all 10 (fun _ _ => 10) ⟨"alice", 0, 0⟩ ⟨"alice", [], 100⟩).1.registry = [] ∧
    (nft_mint_all 10 (fun _ _ => 10) ⟨"alice", 0, 0⟩ ⟨"alice", [], 100⟩).2.isOk = false :=
  nft_mint_all_reconcile_failure_atomic 10 (fun _ _ => 10) ⟨"alice", 0, 0⟩ ⟨"alice", [], 100⟩
    (by decide)

/-- Claim C3: a caller other than the privileged account recorded at
initialization cannot run the batch issuance: the registry-side
authorization check fails the first primitive mint, the dispatcher
discards the call, and no token is created. -/
theorem nft_mint_all_unauthorized_rejected (price : Nat)
    (sz : String → Option TokenMetadata → Nat) (ctx : Ctx) (st : ContractState)
    (h : ctx.predecessor_account_id ≠ st.owner_id) :
    nft_mint_all price sz ctx st = (st, .error .unauthorized) := by
  have h0 : create_token sz ctx.predecessor_account_id "0" st.owner_id
      (some (mariupolMetadata (toString (ctx.block_timestamp / 1000000000)))) st =
      .error .unauthorized := by
    unfold create_token
    rw [if_neg h]
  unfold nft_mint_all nft_mint_all_body
  rw [h0]

/-- Claim C3, witness: a batch issuance attempted by an account that is
not the recorded owner fails with Unauthorized and changes nothing. -/
theorem nft_mint_all_unauthorized_rejected_witness :
    nft_mint_all 10 (fun _ _ => 10) ⟨"mallory", 100000, 0⟩ ⟨"alice", [], 100⟩ =
      (⟨"alice", [], 100⟩, .error .unauthorized) :=
  nft_mint_all_unauthorized_rejected 10 (fun _ _ => 10) ⟨"mallory", 100000, 0⟩
    ⟨"alice", [], 100⟩ (by decide)

/-- Claim C4, counterexample: at `delta = -2` and `StoragePrice = 2 ^ 127`
the released-value multiplication exceeds the unsigned 128-bit range, so
the reconciliation step does not succeed as claimed: it aborts with
ArithmeticOverflow. -/
theorem reconcile_nonpos_counterexample :
    ((-2 : Int) ≤ 0) ∧ reconcile (2 ^ 127) (-2) 5 "bob" = .error .arithmeticOverflow :=
  ⟨by decide, rfl⟩

/-- Claim C4 (amended): for every storage delta `d ≤ 0` whose
released-value multiplication fits the unsigned 128-bit range, the
reconciliation step succeeds and schedules a refund of exactly
`prepaid + natAbs d * StoragePrice` to the payer. -/
theorem reconcile_nonpos_delta_amended (price : Nat) (delta : Int) (prepaid : Nat)
    (payer : String) (hd : delta ≤ 0) (hfit : delta.natAbs * price < 2 ^ 128) :
    reconcile price delta prepaid payer = .ok ⟨prepaid + delta.natAbs * price, payer⟩ := by
  unfold reconcile
  rw [if_neg (by omega), if_pos hfit]

/-- Claim C4, witness: releasing 500 bytes at price 10 with 1 unit prepaid
refunds 1 + 500 * 10 = 5001. -/
theorem reconcile_nonpos_delta_amended_witness :
    reconcile 10 (-500) 1 "frank" = .ok ⟨5001, "frank"⟩ :=
  reconcile_nonpos_delta_amended 10 (-500) 1 "frank" (by decide) (by decide)

/-- Claim C5: a batch issuance by the privileged caller against a registry
that already holds one of the catalog ids (for instance any second run of
the operation) fails with DuplicateTokenId, and the dispatcher discards
the call, so the registry is unchanged and no token of the batch is
created. -/
theorem nft_mint_all_duplicate_rejected (price : Nat)
    (sz : String → Option TokenMetadata → Nat) (ctx : Ctx) (st : ContractState)
    (hc : ctx.predecessor_account_id = st.owner_id)
    (hdup : (st.registry.lookup "0").isSome = true ∨
            (st.registry.lookup "1").isSome = true ∨
            (st.registry.lookup "2").isSome = true) :
    nft_mint_all price sz ctx st = (st, .error .duplicateTokenId) := by
  obtain ⟨stp, heq⟩ := @nft_mint_all_body_dup price sz ctx st hc hdup
  unfold nft_mint_all
  rw [heq]

/-- Claim C5, witness: running the batch issuance a second time on the
state produced by a successful first run fails with DuplicateTokenId and
leaves that state unchanged. -/
theorem nft_mint_all_duplicate_rejected_witness :
    nft_mint_all 10 (fun _ _ => 10) ⟨"alice", 10000, 0⟩
        (nft_mint_all 10 (fun _ _ => 10) ⟨"alice", 10000, 0⟩ ⟨"alice", [], 100⟩).1 =
      ((nft_mint_all 10 (fun _ _ => 10) ⟨"alice", 10000, 0⟩ ⟨"alice", [], 100⟩).1,
       .error .duplicateTokenId) :=
  nft_mint_all_duplicate_rejected 10 (fun _ _ => 10) ⟨"alice", 10000, 0⟩
    (nft_mint_all 10 (fun _ _ => 10) ⟨"alice", 10000, 0⟩ ⟨"alice", [], 100⟩).1
    (by decide) (by decide)

/-- Claim C6: in every successful metered batch issuance, the storage
meter is read exactly twice, once before any registry mutation and once
after all three mutations, reconciliation is performed once on the
overall difference, and exactly one refund is scheduled for the whole
batch: the event trace is the fixed seven-step sequence, and the single
refund amount is precisely the result of reconciling the overall storage
delta against the attached deposit. -/
theorem nft_mint_all_meter_trace (price : Nat)
    (sz : String → Option TokenMetadata → Nat) (ctx : Ctx)
    (st st3 : ContractState) (evs : List Event)
    (h : nft_mint_all_body price sz ctx st = .ok (st3, evs)) :
    evs = [Event.meterRead st.storage_usage,
           Event.mintToken "0", Event.mintToken "1", Event.mintToken "2",
           Event.meterRead st3.storage_usage,
           Event.refund (ctx.attached_deposit - (st3.storage_usage - st.storage_usage) * price)
             ctx.predecessor_account_id,
           Event.nftMintEvent st.owner_id ["0", "1", "2"]] ∧
    reconcile price ((st3.storage_usage - st.storage_usage : Nat) : Int)
        ctx.attached_deposit ctx.predecessor_account_id =
      .ok ⟨ctx.attached_deposit - (st3.storage_usage - st.storage_usage) * price,
           ctx.predecessor_account_id⟩ := by
  obtain ⟨-, -, -, r, hrec, hdest, hevs⟩ := nft_mint_all_body_ok_elim h
  have hr := reconcile_natCast_ok hrec
  subst hr
  exact ⟨hevs, hrec⟩

/-- Claim C6, witness: a successful run with base storage 100, growth 30
bytes, price 10 and deposit 1000 produces the seven-step trace with the
two meter reads 100 and 130 and the single refund of 700. -/
theorem nft_mint_all_meter_trace_witness :
    [Event.meterRead 100, Event.mintToken "0", Event.mintToken "1", Event.mintToken "2",
     Event.meterRead 130, Event.refund 700 "alice", Event.nftMintEvent "alice" ["0", "1", "2"]] =
      [Event.meterRead 100, Event.mintToken "0", Event.mintToken "1", Event.mintToken "2",
       Event.meterRead 130, Event.refund 700 "alice",
       Event.nftMintEvent "alice" ["0", "1", "2"]] ∧
    reconcile 10 ((30 : Nat) : Int) 1000 "alice" = .ok ⟨700, "alice"⟩ :=
  nft_mint_all_meter_trace 10 (fun _ _ => 10) ⟨"alice", 1000, 5⟩ ⟨"alice", [], 100⟩
    ⟨"alice",
     [("2", ⟨"alice", some (mykolaivMetadata "0")⟩),
      ("1", ⟨"alice", some (kharkivMetadata "0")⟩),
      ("0", ⟨"alice", some (mariupolMetadata "0")⟩)], 130⟩
    [Event.meterRead 100, Event.mintToken "0", Event.mintToken "1", Event.mintToken "2",
     Event.meterRead 130, Event.refund 700 "alice", Event.nftMintEvent "alice" ["0", "1", "2"]]
    (by rfl)

/-- Claim C7: whenever the multiplication of the storage delta by the
storage price exceeds the unsigned 128-bit representable range, the
reconciliation step aborts fatally with ArithmeticOverflow; it never
returns a wrapped or truncated product. -/
theorem reconcile_overflow_fatal (price : Nat) (delta : Int) (prepaid : Nat)
    (payer : String) (h : 2 ^ 128 ≤ delta.natAbs * price) :
    reconcile price delta prepaid payer = .error .arithmeticOverflow := by
  unfold reconcile
  rcases lt_or_le 0 delta with hd | hd
  · have ht : delta.toNat = delta.natAbs := by omega
    rw [if_pos hd, ht, if_neg (by omega)]
  · rw [if_neg (by omega), if_neg (by omega)]

/-- Claim C7, witness: at `delta = 4` and `StoragePrice = 2 ^ 127` the
product is `2 ^ 129`, beyond the unsigned 128-bit range, and the step
aborts with ArithmeticOverflow. -/
theorem reconcile_overflow_fatal_witness :
    reconcile (2 ^ 127) 4 7 "carol" = .error .arithmeticOverflow :=
  reconcile_overflow_fatal (2 ^ 127) 4 7 "carol" (by decide)

/-- Claim C8: every successful batch issuance emits exactly one mint
notification, and it names the full set of created token ids "0", "1",
"2" together with the contract owner as their final owner. -/
theorem nft_mint_all_single_mint_notice (price : Nat)
    (sz : String → Option TokenMetadata → Nat) (ctx : Ctx)
    (st st3 : ContractState) (evs : List Event)
    (h : nft_mint_all_body price sz ctx st = .ok (st3, evs)) :
    evs.filter Event.isNftMintEvent = [Event.nftMintEvent st.owner_id ["0", "1", "2"]] := by
  obtain ⟨-, -, -, r, -, -, hevs⟩ := nft_mint_all_body_ok_elim h
  subst hevs
  rfl

/-- Claim C8, witness: the trace of a concrete successful run holds
exactly one mint notification, naming ids "0", "1", "2" and the owner. -/
theorem nft_mint_all_single_mint_notice_witness :
    List.filter Event.isNftMintEvent
      [Event.meterRead 200, Event.mintToken "0", Event.mintToken "1", Event.mintToken "2",
       Event.meterRead 230, Event.refund 1700 "alice",
       Event.nftMintEvent "alice" ["0", "1", "2"]] =
      [Event.nftMintEvent "alice" ["0", "1", "2"]] :=
  nft_mint_all_single_mint_notice 10 (fun _ _ => 10) ⟨"alice", 2000, 0⟩ ⟨"alice", [], 200⟩
    ⟨"alice",
     [("2", ⟨"alice", some (mykolaivMetadata "0")⟩),
      ("1", ⟨"alice", some (kharkivMetadata "0")⟩),
      ("0", ⟨"alice", some (mariupolMetadata "0")⟩)], 230⟩
    [Event.meterRead 200, Event.mintToken "0", Event.mintToken "1", Event.mintToken "2",
     Event.meterRead 230, Event.refund 1700 "alice", Event.nftMintEvent "alice" ["0", "1", "2"]]
    (by rfl)

/-- Claim C9: after every successful batch issuance the three created
tokens "0", "1" and "2" are all owned by the contract owner recorded at
initialization, whoever made the call, while every refund scheduled by
the call is addressed to the calling account (the predecessor). -/
theorem nft_mint_all_owner_and_refund_target (price : Nat)
    (sz : String → Option TokenMetadata → Nat) (ctx : Ctx)
    (st st3 : ContractState) (evs : List Event)
    (h : nft_mint_all_body price sz ctx st = .ok (st3, evs)) :
    st3.registry.lookup "0" =
      some ⟨st.owner_id, some (mariupolMetadata (toString (ctx.block_timestamp / 1000000000)))⟩ ∧
    st3.registry.lookup "1" =
      some ⟨st.owner_id, some (kharkivMetadata (toString (ctx.block_timestamp / 1000000000)))⟩ ∧
    st3.registry.lookup "2" =
      some ⟨st.owner_id, some (mykolaivMetadata (toString (ctx.block_timestamp / 1000000000)))⟩ ∧
    (∀ a d, Event.refund a d ∈ evs → d = ctx.predecessor_account_id) := by
  obtain ⟨-, -, hreg, r, -, hdest, hevs⟩ := nft_mint_all_body_ok_elim h
  refine ⟨?_, ?_, ?_, ?_⟩
  · rw [hreg, lookup_cons_of_ne (by decide), lookup_cons_of_ne (by decide)]
    simp [List.lookup]
  · rw [hreg, lookup_cons_of_ne (by decide)]
    simp [List.lookup]
  · rw [hreg]
    simp [List.lookup]
  · intro a d hmem
    subst hevs
    simp only [List.mem_cons, List.not_mem_nil, or_false] at hmem
    rcases hmem with h | h | h | h | h | h | h
    all_goals cases h
    exact hdest

/-- Claim C9, witness: in a concrete successful run the registry maps id
"0" to a token owned by the recorded owner. -/
theorem nft_mint_all_owner_and_refund_target_witness :
    (⟨"alice",
      [("2", ⟨"alice", some (mykolaivMetadata "0")⟩),
       ("1", ⟨"alice", some (kharkivMetadata "0")⟩),
       ("0", ⟨"alice", some (mariupolMetadata "0")⟩)], 330⟩ : ContractState).registry.lookup "0" =
      some ⟨"alice", some (mariupolMetadata "0")⟩ :=
  (nft_mint_all_owner_and_refund_target 10 (fun _ _ => 10) ⟨"alice", 3000, 0⟩
    ⟨"alice", [], 300⟩
    ⟨"alice",
     [("2", ⟨"alice", some (mykolaivMetadata "0")⟩),
      ("1", ⟨"alice", some (kharkivMetadata "0")⟩),
      ("0", ⟨"alice", some (mariupolMetadata "0")⟩)], 330⟩
    [Event.meterRead 300, Event.mintToken "0", Event.mintToken "1", Event.mintToken "2",
     Event.meterRead 330, Event.refund 2700 "alice", Event.nftMintEvent "alice" ["0", "1", "2"]]
    (by rfl)).1

/-- Claim C10, counterexample: with `StoragePrice = 10`, `delta = 1` and
`prepaid = 11` the excess is exactly 1, yet a refund transfer of that 1
unit is scheduled to the payer, so the claimed minimum threshold of more
than 1 does not exist in the reconciler described by the specification. -/
theorem reconcile_threshold_counterexample :
    (11 : Nat) - (1 : Int).toNat * 10 = 1 ∧
    reconcile 10 1 11 "dave" = .ok ⟨1, "dave"⟩ :=
  ⟨rfl, rfl⟩

/-- Claim C10 (amended): after a successful metered call with positive
storage delta, the full excess (prepaid minus required storage cost) is
always scheduled as a refund to the payer, with no minimum threshold:
this includes an excess of exactly 0 or 1. -/
theorem reconcile_excess_always_refunded (price : Nat) (delta : Int) (prepaid : Nat)
    (payer : String) (hd : 0 < delta) (hfit : delta.natAbs * price < 2 ^ 128)
    (hcov : delta.natAbs * price ≤ prepaid) :
    reconcile price delta prepaid payer = .ok ⟨prepaid - delta.natAbs * price, payer⟩ := by
  have ht : delta.toNat = delta.natAbs := by omega
  unfold reconcile
  rw [if_pos hd, ht, if_pos hfit, if_neg (by omega)]

/-- Claim C10, witness: an excess of exactly 1 (prepaid 31 against a
required 30) is still scheduled as a refund of 1 to the payer. -/
theorem reconcile_excess_always_refunded_witness :
    reconcile 10 3 31 "erin" = .ok ⟨1, "erin"⟩ :=
  reconcile_excess_always_refunded 10 3 31 "erin" (by decide) (by decide) (by decide)
